import Mathlib

/-!
Verification of the Document Ingestion & Conversion Pipeline of the
React-App-Learn repository, shallowly embedded in Lean 4.

The embedding follows the TypeScript source:
* `src/lib/exercises.ts` — error taxonomy (`MathpixErrorCode`), the HTTP
  status translation (`handleMathpixResponse`), the retry policy
  (`retryWithDelay`), the synchronous image path
  (`processImageWithMathpix`) and the orchestrator wrapper
  (`processWithMathpix`);
* `src/lib/documents.ts` — the local cache mirror (`loadDocuments`,
  `saveDocument`, `clearDocumentCache`), per-artifact resolution
  (`fetchDocument`) and the resolver (`fetchStoredDocuments`).

Asynchronous effects are made explicit: HTTP traffic is an environment
record, the AsyncStorage slot is threaded state, wall-clock delays are
recorded as a list of requested waits.  JavaScript strings are Lean
`String`s; title derivation and markup normalisation operate on the
underlying character lists so that the anchored-regex replaces of the
source are mirrored exactly.
-/

/-- The eleven-value conversion-error taxonomy, from `enum MathpixErrorCode`
in `src/lib/exercises.ts`. -/
inductive MathpixErrorCode where
  | INVALID_CREDENTIALS
  | RATE_LIMIT_EXCEEDED
  | FILE_TOO_LARGE
  | UNSUPPORTED_FORMAT
  | PROCESSING_ERROR
  | EMPTY_RESPONSE
  | NETWORK_ERROR
  | TIMEOUT
  | LOW_CONFIDENCE
  | NO_MATH_DETECTED
  | INVALID_CONTENT
deriving DecidableEq, Repr

/-- A thrown JavaScript value: either a typed `MathpixError` (identified by
its `code`) or any other thrown condition, kept opaque.  This mirrors the
`error instanceof MathpixError` tests in the source. -/
inductive JSError where
  | mathpix : MathpixErrorCode → JSError
  | other : String → JSError
deriving DecidableEq, Repr

/-- `MAX_RETRIES` constant from `src/lib/exercises.ts`. -/
def MAX_RETRIES : Nat := 3

/-- `RETRY_DELAY` constant (milliseconds) from `src/lib/exercises.ts`. -/
def RETRY_DELAY : Nat := 2000

/-- The retry guard of `retryWithDelay`: retry only when the thrown value is
a `MathpixError` whose code is `NETWORK_ERROR` or `PROCESSING_ERROR`. -/
def isRetryable : JSError → Bool
  | JSError.mathpix MathpixErrorCode.NETWORK_ERROR => true
  | JSError.mathpix MathpixErrorCode.PROCESSING_ERROR => true
  | _ => false

instance {ε α : Type} [DecidableEq ε] [DecidableEq α] : DecidableEq (Except ε α) := fun a b =>
  match a, b with
  | Except.error e, Except.error f =>
      decidable_of_iff (e = f) (Iff.of_eq (Except.error.injEq e f)).symm
  | Except.ok v, Except.ok w =>
      decidable_of_iff (v = w) (Iff.of_eq (Except.ok.injEq v w)).symm
  | Except.error _, Except.ok _ => isFalse fun h => Except.noConfusion h
  | Except.ok _, Except.error _ => isFalse fun h => Except.noConfusion h

/-- Observable outcome of one `retryWithDelay` run: the value returned or
error thrown, how many times the wrapped operation was invoked, and the
sequence of waits (in ms) requested via `setTimeout`, in order. -/
structure RetryOutcome (α : Type) where
  result : Except JSError α
  attemptsUsed : Nat
  delays : List Nat
deriving Repr

instance {α : Type} [DecidableEq α] : DecidableEq (RetryOutcome α) := by
  intro a b
  cases a
  cases b
  exact decidable_of_iff _ (Iff.of_eq (RetryOutcome.mk.injEq ..)).symm

/-- The loop body of `retryWithDelay` (`src/lib/exercises.ts:362-387`).
`op n` is the outcome of the n-th invocation of the wrapped operation
(attempts are numbered from 1, as in the source).  The `TIMEOUT` throw
after the loop is reached only when the loop body never runs, i.e. when
`attempt` already exceeds `retries` on entry. -/
def retryGo {α : Type} (op : Nat → Except JSError α) (retries attempt : Nat) :
    RetryOutcome α :=
  if _h : retries < attempt then
    { result := Except.error (JSError.mathpix MathpixErrorCode.TIMEOUT),
      attemptsUsed := 0, delays := [] }
  else
    match op attempt with
    | Except.ok v => { result := Except.ok v, attemptsUsed := 1, delays := [] }
    | Except.error e =>
      if isRetryable e ∧ attempt < retries then
        let rest := retryGo op retries (attempt + 1)
        { result := rest.result,
          attemptsUsed := rest.attemptsUsed + 1,
          delays := RETRY_DELAY * attempt :: rest.delays }
      else
        { result := Except.error e, attemptsUsed := 1, delays := [] }
termination_by retries + 1 - attempt
decreasing_by omega

/-- `retryWithDelay(operation, retries)` from `src/lib/exercises.ts`. -/
def retryWithDelay {α : Type} (op : Nat → Except JSError α)
    (retries : Nat := MAX_RETRIES) : RetryOutcome α :=
  retryGo op retries 1

/-- `handleMathpixResponse` (`src/lib/exercises.ts:298-360`) as a total map
from HTTP status code to the `MathpixErrorCode` it throws.  The source
`switch` handles exactly 400, 401, 429, 413, 415 and 500/502/503/504;
every other status falls to the `default` branch (`NETWORK_ERROR`). -/
def handleMathpixResponse (status : Nat) : MathpixErrorCode :=
  if status = 400 then MathpixErrorCode.INVALID_CONTENT
  else if status = 401 then MathpixErrorCode.INVALID_CREDENTIALS
  else if status = 429 then MathpixErrorCode.RATE_LIMIT_EXCEEDED
  else if status = 413 then MathpixErrorCode.FILE_TOO_LARGE
  else if status = 415 then MathpixErrorCode.UNSUPPORTED_FORMAT
  else if status = 500 ∨ status = 502 ∨ status = 503 ∨ status = 504 then
    MathpixErrorCode.PROCESSING_ERROR
  else MathpixErrorCode.NETWORK_ERROR

/-- One step of the global 2-character literal replace used by the image
path's delimiter normalisation: `replace2 a b rep cs` mirrors
`String.prototype.replace` with a global regex matching the two-character
literal `ab`, replacing each (non-overlapping, left-to-right) occurrence
with `rep`.  In the source the replacement strings are `'$$'` and `'$'`,
both of which denote a single literal dollar sign in JavaScript replacement
syntax (`$$` is the escape for `$`). -/
def replace2F (a b : Char) (rep : List Char) : Nat → List Char → List Char
  | _, [] => []
  | 0, l => l
  | fuel + 1, c₁ :: rest =>
    match rest with
    | [] => [c₁]
    | c₂ :: cs =>
      if c₁ = a ∧ c₂ = b then rep ++ replace2F a b rep fuel cs
      else c₁ :: replace2F a b rep fuel rest

/-- The replace, with enough fuel that the `0` case of `replace2F` is never
reached. -/
def replace2 (a b : Char) (rep : List Char) (l : List Char) : List Char :=
  replace2F a b rep l.length l

/-- Emit one maximal run of `n` newline characters after the `/\n{3,}/`
global replace with `"\n\n"`: runs of three or more collapse to exactly
two, shorter runs are untouched. -/
def emitRun (n : Nat) : List Char :=
  List.replicate (if 3 ≤ n then 2 else n) '\n'

/-- Scanner for the `/\n{3,}/` replace: `pending` counts the newline run
read so far but not yet emitted. -/
def collapseNLAux (pending : Nat) : List Char → List Char
  | [] => emitRun pending
  | c :: cs =>
    if c = '\n' then collapseNLAux (pending + 1) cs
    else emitRun pending ++ c :: collapseNLAux 0 cs

/-- The global replace of `/\n{3,}/` with `"\n\n"`: every maximal run of
three or more newline characters collapses to exactly two; shorter runs
are untouched. -/
def collapseNL (cs : List Char) : List Char := collapseNLAux 0 cs

/-- ASCII whitespace recogniser backing the final `.trim()`. -/
def isWs (c : Char) : Bool := c = ' ' ∨ c = '\n' ∨ c = '\t' ∨ c = '\r'

/-- `String.prototype.trim`: drop whitespace from both ends. -/
def trimChars (cs : List Char) : List Char :=
  ((cs.dropWhile isWs).reverse.dropWhile isWs).reverse

/-- The delimiter normalisation applied to `result.latex_styled` on the
synchronous image path (`src/lib/exercises.ts:604-610`): replace `\[`,
`\]`, `\(`, `\)` by a dollar sign (see `replace2` for the JavaScript
replacement-string semantics), collapse runs of 3+ newlines to 2, trim. -/
def normalizeMMD (s : String) : String :=
  String.mk (trimChars (collapseNL
    (replace2 '\\' ')' ['$']
      (replace2 '\\' '(' ['$']
        (replace2 '\\' ']' ['$']
          (replace2 '\\' '[' ['$'] s.data))))))

/-- `CONFIDENCE_THRESHOLD` constant (0.7) from `src/lib/exercises.ts`. -/
def CONFIDENCE_THRESHOLD : ℚ := 7 / 10

/-- The parsed body of a `/text` recognition response, following the
`MathpixTextResponse` interface of the source (the optional `error` field
becomes an `Option`). -/
structure MathpixTextResponse where
  text : String
  html : String
  latex_styled : String
  confidence : ℚ
  confidence_rate : ℚ
  error : Option String
deriving DecidableEq, Repr

/-- The `MathpixResponse` interface of the source: all four fields are
optional. -/
structure MathpixResponse where
  text : Option String
  mmd : Option String
  error : Option String
  pdf_id : Option String
deriving DecidableEq, Repr

/-- `processImageWithMathpix` (`src/lib/exercises.ts:541-635`) given an
already-parsed successful (2xx) recognition response `r`.  The storage
state `σ` (list of `(path, bytes)` uploads performed so far) is threaded
through unchanged: the image path performs no storage write.  Branch order
follows the source: `error` field, then confidence threshold, then
missing-output check (`!result.text && !result.latex_styled`, where an
empty string counts as missing), then normalisation and the emptiness
check on its result. -/
def processImageWithMathpix (r : MathpixTextResponse)
    (σ : List (String × String)) :
    Except MathpixErrorCode MathpixResponse × List (String × String) :=
  match r.error with
  | some _ => (Except.error MathpixErrorCode.PROCESSING_ERROR, σ)
  | none =>
    if r.confidence < CONFIDENCE_THRESHOLD then
      (Except.error MathpixErrorCode.LOW_CONFIDENCE, σ)
    else if r.text = "" ∧ r.latex_styled = "" then
      (Except.error MathpixErrorCode.NO_MATH_DETECTED, σ)
    else
      let mmd := normalizeMMD r.latex_styled
      if mmd = "" then (Except.error MathpixErrorCode.EMPTY_RESPONSE, σ)
      else
        (Except.ok { text := some r.text, mmd := some mmd,
                     error := none, pdf_id := none }, σ)

/-- The outer shell of `processWithMathpix` (`src/lib/exercises.ts:470-539`):
a credentials check that throws a typed `INVALID_CREDENTIALS` error before
the `try`, then a `try`/`catch` around the whole pipeline (`inner`) that
rethrows `MathpixError`s unchanged and wraps every other thrown value as
`PROCESSING_ERROR`.  `inner` stands for the outcome of the `retryWithDelay`-
wrapped image or PDF pipeline, which may throw anything. -/
def processWithMathpix (credsConfigured : Bool)
    (inner : Except JSError MathpixResponse) : Except JSError MathpixResponse :=
  if credsConfigured = false then
    Except.error (JSError.mathpix MathpixErrorCode.INVALID_CREDENTIALS)
  else
    match inner with
    | Except.ok v => Except.ok v
    | Except.error (JSError.mathpix c) => Except.error (JSError.mathpix c)
    | Except.error (JSError.other _) =>
        Except.error (JSError.mathpix MathpixErrorCode.PROCESSING_ERROR)

/-- A cached document, from `interface PDFDocument` in
`src/lib/documents.ts`. -/
structure PDFDocument where
  id : String
  title : String
  content : String
  timestamp : Nat
deriving DecidableEq, Repr

/-- The single AsyncStorage slot under key `'user_documents'`.  `none`
means the key is absent (never written, or removed by
`clearDocumentCache`); `some docs` is the stored JSON-decoded list. -/
abbrev Mirror : Type := Option (List PDFDocument)

/-- `loadDocuments` (`src/lib/documents.ts:35-43`): read the slot, `[]`
when the key is absent.  The function takes no user argument in the
source. -/
def loadDocuments (σ : Mirror) : List PDFDocument := σ.getD []

/-- `clearDocumentCache` (`src/lib/documents.ts:15-22`): remove the key. -/
def clearDocumentCache (_σ : Mirror) : Mirror := none

/-- `saveDocument` (`src/lib/documents.ts:24-33`): prepend the new record
to the stored list and write the result back.  The `userId` parameter is
accepted but never used — the write goes to the one global
`'user_documents'` key. -/
def saveDocument (_userId : String) (document : PDFDocument) (σ : Mirror) :
    Mirror :=
  some (document :: loadDocuments σ)

/-- True suffix test on strings, mirroring the anchored regexes
(`/\.mmd$/` etc.) of the source. -/
def endsWithS (s suf : String) : Bool := suf.data.isSuffixOf s.data

/-- Drop the last `n` characters of a string. -/
def dropRightS (s : String) (n : Nat) : String :=
  String.mk (s.data.take (s.data.length - n))

/-- `.replace(/\.mmd$/, '')`: strip one trailing `.mmd`. -/
def stripMmd (s : String) : String :=
  if endsWithS s ".mmd" then dropRightS s 4 else s

/-- `.replace(/\.pdf\.mmd$/, '.pdf')`: a trailing `.pdf.mmd` becomes
`.pdf`, i.e. the final `.mmd` is dropped. -/
def stripPdfMmd (s : String) : String :=
  if endsWithS s ".pdf.mmd" then dropRightS s 4 else s

/-- `.replace(/\.pdf$/, '')`: strip one trailing `.pdf`. -/
def stripPdf (s : String) : String :=
  if endsWithS s ".pdf" then dropRightS s 4 else s

/-- The title/baseName derivation chained in `fetchDocument`
(`src/lib/documents.ts:68-71` and `85-88`): the three anchored replaces
applied in source order. -/
def deriveTitle (s : String) : String := stripPdf (stripPdfMmd (stripMmd s))

/-- The remote side seen by one `fetchStoredDocuments` run:
`listing` is the outcome of `listAll` on `users/{userId}/mmd` (a thrown
error or the artifact names), and `content p` is the combined outcome of
`getDownloadURL` + `fetch` + `text()` for storage path `p` — `none` when
any stage fails (including the 30 s timeout race), `some c` when the body
`c` was downloaded. -/
structure RemoteEnv where
  listing : Except Unit (List String)
  content : String → Option String

/-- The candidate storage paths tried in order by the native branch of
`fetchDocument` (`src/lib/documents.ts:90-94`); the first entry is the
current convention and is also the single path the web branch tries. -/
def candidatePaths (userId name : String) : List String :=
  ["users/" ++ userId ++ "/mmd/" ++ name,
   "users/" ++ userId ++ "/mmd/" ++ deriveTitle name ++ ".mmd",
   "users/" ++ userId ++ "/mmd/" ++ deriveTitle name ++ ".pdf.mmd"]

/-- `fetchDocument` (`src/lib/documents.ts:45-121`): try the candidate
paths in order, succeed at the first that downloads non-empty content,
yielding a record with `id` the stored name and `title` the derived base
name; `none` if every candidate fails. -/
def fetchDocument (env : RemoteEnv) (userId name : String) (now : Nat) :
    Option PDFDocument :=
  (candidatePaths userId name).findSome? fun p =>
    match env.content p with
    | some c =>
      if c = "" then none
      else some { id := name, title := deriveTitle name, content := c,
                  timestamp := now }
    | none => none

/-- `fetchStoredDocuments` (`src/lib/documents.ts:123-204`): returns the
document list handed to the caller together with the new state of the
local mirror.  Cache-first read when `forceRefresh` is false and the
mirror is non-empty; otherwise list the remote artifacts — on a listing
error clear the cache and return `[]`; on zero artifacts clear and return
`[]`; otherwise resolve every artifact, replace the mirror when at least
one resolved, and clear it when none did. -/
def fetchStoredDocuments (env : RemoteEnv) (σ : Mirror) (userId : String)
    (forceRefresh : Bool) (now : Nat) : List PDFDocument × Mirror :=
  let localDocs := if forceRefresh then [] else loadDocuments σ
  if forceRefresh = false ∧ localDocs ≠ [] then (localDocs, σ)
  else
    match env.listing with
    | Except.error _ => ([], clearDocumentCache σ)
    | Except.ok items =>
      if items = [] then ([], clearDocumentCache σ)
      else
        let fetchedDocs :=
          items.filterMap fun item => fetchDocument env userId item now
        if fetchedDocs ≠ [] then (fetchedDocs, some fetchedDocs)
        else ([], clearDocumentCache σ)

/-- Sample cached document used in concrete scenarios. -/
def dEx : PDFDocument :=
  { id := "doc1.pdf.mmd", title := "doc1", content := "$1+1$", timestamp := 0 }

/-- Second sample cached document used in concrete scenarios. -/
def dEx2 : PDFDocument :=
  { id := "doc2.pdf.mmd", title := "doc2", content := "$2+2$", timestamp := 0 }

/-- Remote environment of spec Scenario A: the listing for owner `u1`
holds exactly `calc101.pdf.mmd`, and the first (current-convention)
candidate path downloads the non-empty content `$x^2$`. -/
def envA : RemoteEnv :=
  { listing := Except.ok ["calc101.pdf.mmd"],
    content := fun p =>
      if p = "users/u1/mmd/calc101.pdf.mmd" then some "$x^2$" else none }

/-- The record the code actually produces in Scenario A (note the title:
the chained replaces strip `.mmd` and then `.pdf`). -/
def recA : PDFDocument :=
  { id := "calc101.pdf.mmd", title := "calc101", content := "$x^2$",
    timestamp := 0 }

/-- A retryable failure kind satisfies the retry guard. -/
lemma isRetryable_of_kind {c : MathpixErrorCode}
    (h : c = MathpixErrorCode.NETWORK_ERROR ∨ c = MathpixErrorCode.PROCESSING_ERROR) :
    isRetryable (JSError.mathpix c) = true := by
  rcases h with h | h <;> simp [h, isRetryable]

/-- Exhaustion lemma for the retry loop: if every attempt from `attempt`
to `retries` fails with a retryable kind, the loop invokes the operation
once per remaining attempt, waits `RETRY_DELAY * n` after the n-th
attempt, and re-raises the error of the final attempt. -/
lemma retryGo_all_retryable_fail {α : Type} (op : Nat → Except JSError α)
    (retries : Nat) :
    ∀ d attempt, 1 ≤ attempt → attempt + d = retries →
    (∀ n, attempt ≤ n → n ≤ retries →
      ∃ c, op n = Except.error (JSError.mathpix c) ∧
        (c = MathpixErrorCode.NETWORK_ERROR ∨ c = MathpixErrorCode.PROCESSING_ERROR)) →
    ∃ c, op retries = Except.error (JSError.mathpix c) ∧
      (c = MathpixErrorCode.NETWORK_ERROR ∨ c = MathpixErrorCode.PROCESSING_ERROR) ∧
      retryGo op retries attempt =
        { result := Except.error (JSError.mathpix c),
          attemptsUsed := d + 1,
          delays := (List.range d).map (fun i => RETRY_DELAY * (attempt + i)) } := by
  intro d
  induction d with
  | zero =>
    intro attempt h1 hEq hAll
    obtain ⟨c, hc, hck⟩ := hAll attempt (le_refl _) (by omega)
    have hAtt : attempt = retries := by omega
    subst hAtt
    refine ⟨c, hc, hck, ?_⟩
    rw [retryGo, dif_neg (by omega), hc]
    dsimp only
    rw [if_neg (by simp)]
    simp
  | succ d ih =>
    intro attempt h1 hEq hAll
    have hlt : attempt < retries := by omega
    obtain ⟨c₀, hc₀, hck₀⟩ := hAll attempt (le_refl _) (by omega)
    obtain ⟨c, hc, hck, hgo⟩ :=
      ih (attempt + 1) (by omega) (by omega) (fun n hn hn' => hAll n (by omega) hn')
    refine ⟨c, hc, hck, ?_⟩
    rw [retryGo, dif_neg (by omega), hc₀]
    dsimp only
    rw [if_pos ⟨isRetryable_of_kind hck₀, hlt⟩, hgo]
    refine congrArg (RetryOutcome.mk _ _) ?_
    rw [List.range_succ_eq_map, List.map_cons, List.map_map]
    refine congrArg₂ List.cons (by ring) ?_
    refine List.map_congr_left fun i _ => ?_
    simp only [Function.comp_apply, Nat.succ_eq_add_one]
    ring

/-- A trailing `.pdf.mmd` is in particular a trailing `.mmd`. -/
lemma endsWithS_mmd_of_pdfmmd (s : String)
    (h : endsWithS s ".pdf.mmd" = true) : endsWithS s ".mmd" = true := by
  unfold endsWithS at h ⊢
  rw [List.isSuffixOf_iff_suffix] at h ⊢
  have hsub : ".mmd".data <:+ ".pdf.mmd".data := ⟨".pdf".data, by decide⟩
  exact hsub.trans h

/-- Claim C1 (amended): when every one of the `retries ≥ 1` invocations of
the wrapped operation fails with a kind in
{`network_error`, `processing_error`}, `retryWithDelay` invokes the
operation exactly `retries` times and waits `RETRY_DELAY * (n-1)` before
attempt `n` (for `n ≥ 2`), but then re-raises the error of the final
attempt — whose kind is `network_error` or `processing_error`, never
`timeout` — rather than raising a `timeout` error: the `TIMEOUT` throw
after the loop is unreachable for `retries ≥ 1`. -/
theorem retry_exhaustion_propagates_last_error {α : Type}
    (op : Nat → Except JSError α) (retries : Nat) (hret : 1 ≤ retries)
    (hAll : ∀ n, 1 ≤ n → n ≤ retries →
      ∃ c, op n = Except.error (JSError.mathpix c) ∧
        (c = MathpixErrorCode.NETWORK_ERROR ∨ c = MathpixErrorCode.PROCESSING_ERROR)) :
    ∃ c, op retries = Except.error (JSError.mathpix c) ∧
      (c = MathpixErrorCode.NETWORK_ERROR ∨ c = MathpixErrorCode.PROCESSING_ERROR) ∧
      c ≠ MathpixErrorCode.TIMEOUT ∧
      retryWithDelay op retries =
        { result := Except.error (JSError.mathpix c),
          attemptsUsed := retries,
          delays := (List.range (retries - 1)).map (fun i => RETRY_DELAY * (i + 1)) } := by
  obtain ⟨c, hc, hck, hgo⟩ :=
    retryGo_all_retryable_fail op retries (retries - 1) 1 (le_refl _) (by omega) hAll
  refine ⟨c, hc, hck, by rcases hck with h | h <;> simp [h], ?_⟩
  rw [retryWithDelay, hgo]
  refine congrArg₂ (RetryOutcome.mk _) (by omega) ?_
  refine List.map_congr_left fun i _ => ?_
  ring

/-- Claim C1, witness: the amended statement instantiated at an operation
that fails with `network_error` on every one of its 3 attempts. -/
theorem retry_exhaustion_propagates_last_error_witness :
    ∃ c, (fun _ : Nat =>
        (Except.error (JSError.mathpix MathpixErrorCode.NETWORK_ERROR) :
          Except JSError Nat)) 3 = Except.error (JSError.mathpix c) ∧
      (c = MathpixErrorCode.NETWORK_ERROR ∨ c = MathpixErrorCode.PROCESSING_ERROR) ∧
      c ≠ MathpixErrorCode.TIMEOUT ∧
      retryWithDelay (fun _ : Nat =>
        (Except.error (JSError.mathpix MathpixErrorCode.NETWORK_ERROR) :
          Except JSError Nat)) 3 =
        { result := Except.error (JSError.mathpix c),
          attemptsUsed := 3,
          delays := (List.range (3 - 1)).map (fun i => RETRY_DELAY * (i + 1)) } :=
  retry_exhaustion_propagates_last_error _ 3 (by omega)
    (fun _ _ _ => ⟨MathpixErrorCode.NETWORK_ERROR, rfl, Or.inl rfl⟩)

/-- Claim C1, counterexample to the statement as written: an operation
that fails with `network_error` on all 3 default attempts makes
`retryWithDelay` perform 3 invocations with waits 2000 ms and 4000 ms, but
the error finally raised has kind `network_error`, not `timeout`. -/
theorem retry_exhaustion_not_timeout_cex :
    (retryWithDelay (fun _ : Nat =>
        (Except.error (JSError.mathpix MathpixErrorCode.NETWORK_ERROR) :
          Except JSError Nat)) 3) =
      { result := Except.error (JSError.mathpix MathpixErrorCode.NETWORK_ERROR),
        attemptsUsed := 3, delays := [2000, 4000] } ∧
    Except.error (JSError.mathpix MathpixErrorCode.NETWORK_ERROR) ≠
      (Except.error (JSError.mathpix MathpixErrorCode.TIMEOUT) : Except JSError Nat) := by
  constructor
  · simp [retryWithDelay, retryGo, isRetryable, RETRY_DELAY]
  · simp

/-- Claim C8: for every wrapped operation whose invocation fails with a
kind `k` outside {`network_error`, `processing_error`}, `retryWithDelay`
invokes the operation exactly once, performs no wait, and propagates the
same error kind `k` unchanged to its caller. -/
theorem retry_non_retryable_single_attempt {α : Type}
    (op : Nat → Except JSError α) (retries : Nat) (k : MathpixErrorCode)
    (hret : 1 ≤ retries)
    (h1 : op 1 = Except.error (JSError.mathpix k))
    (hnet : k ≠ MathpixErrorCode.NETWORK_ERROR)
    (hproc : k ≠ MathpixErrorCode.PROCESSING_ERROR) :
    retryWithDelay op retries =
      { result := Except.error (JSError.mathpix k),
        attemptsUsed := 1, delays := [] } := by
  have hr : isRetryable (JSError.mathpix k) = false := by
    cases k <;> simp_all [isRetryable]
  rw [retryWithDelay, retryGo, dif_neg (by omega), h1]
  dsimp only
  rw [if_neg (by simp [hr])]

/-- Claim C8, witness: an operation failing with `rate_limit_exceeded`
(the kind produced by an HTTP 429 submit response) is invoked once and its
kind propagates unchanged. -/
theorem retry_non_retryable_single_attempt_witness :
    retryWithDelay (fun _ : Nat =>
        (Except.error (JSError.mathpix MathpixErrorCode.RATE_LIMIT_EXCEEDED) :
          Except JSError Nat)) 3 =
      { result := Except.error (JSError.mathpix MathpixErrorCode.RATE_LIMIT_EXCEEDED),
        attemptsUsed := 1, delays := [] } :=
  retry_non_retryable_single_attempt _ 3 MathpixErrorCode.RATE_LIMIT_EXCEEDED
    (by omega) rfl (by decide) (by decide)

/-- Claim C4 (amended): the remote-client error translation fails with
`invalid_content` exactly on status 400 (not on the whole 400 class),
`invalid_credentials` on 401, `rate_limit_exceeded` on 429,
`file_too_large` on 413, `unsupported_format` on 415, `processing_error`
exactly on 500, 502, 503 and 504 (not on all of 5xx), and `network_error`
on every other status. -/
theorem handleMathpixResponse_mapping (status : Nat) :
    (status = 400 → handleMathpixResponse status = MathpixErrorCode.INVALID_CONTENT) ∧
    (status = 401 → handleMathpixResponse status = MathpixErrorCode.INVALID_CREDENTIALS) ∧
    (status = 429 → handleMathpixResponse status = MathpixErrorCode.RATE_LIMIT_EXCEEDED) ∧
    (status = 413 → handleMathpixResponse status = MathpixErrorCode.FILE_TOO_LARGE) ∧
    (status = 415 → handleMathpixResponse status = MathpixErrorCode.UNSUPPORTED_FORMAT) ∧
    (status = 500 ∨ status = 502 ∨ status = 503 ∨ status = 504 →
      handleMathpixResponse status = MathpixErrorCode.PROCESSING_ERROR) ∧
    (status ≠ 400 → status ≠ 401 → status ≠ 429 → status ≠ 413 → status ≠ 415 →
      status ≠ 500 → status ≠ 502 → status ≠ 503 → status ≠ 504 →
      handleMathpixResponse status = MathpixErrorCode.NETWORK_ERROR) := by
  refine ⟨?_, ?_, ?_, ?_, ?_, ?_, ?_⟩
  · rintro rfl; rfl
  · rintro rfl; rfl
  · rintro rfl; rfl
  · rintro rfl; rfl
  · rintro rfl; rfl
  · rintro (rfl | rfl | rfl | rfl) <;> rfl
  · intro h400 h401 h429 h413 h415 h500 h502 h503 h504
    simp [handleMathpixResponse, h400, h401, h429, h413, h415, h500, h502, h503, h504]

/-- Claim C4, witness: status 403 takes the default branch and maps to
`network_error`. -/
theorem handleMathpixResponse_mapping_witness :
    handleMathpixResponse 403 = MathpixErrorCode.NETWORK_ERROR :=
  (handleMathpixResponse_mapping 403).2.2.2.2.2.2 (by decide) (by decide) (by decide)
    (by decide) (by decide) (by decide) (by decide) (by decide) (by decide)

/-- Claim C4, counterexample to the statement as written: 403 is a
400-class status left to the default branch, so it maps to `network_error`
rather than `invalid_content`; likewise 501 is a 5xx status that maps to
`network_error` rather than `processing_error`. -/
theorem handleMathpixResponse_400_class_cex :
    handleMathpixResponse 403 = MathpixErrorCode.NETWORK_ERROR ∧
    MathpixErrorCode.NETWORK_ERROR ≠ MathpixErrorCode.INVALID_CONTENT ∧
    handleMathpixResponse 501 = MathpixErrorCode.NETWORK_ERROR ∧
    MathpixErrorCode.NETWORK_ERROR ≠ MathpixErrorCode.PROCESSING_ERROR := by
  refine ⟨rfl, by decide, rfl, by decide⟩

/-- Claim C5: on the synchronous image path, for a recognition response
whose error field is absent: confidence below the 0.7 threshold fails with
`low_confidence` and leaves the storage state (hence any persisted
artifact set) unchanged; otherwise, if neither plain text nor styled
output is present the path fails with `no_math_detected`; otherwise the
styled output is normalised by `normalizeMMD` (bracket-style math markers
to dollar form, 3+ newlines collapsed to 2, trim), the path fails with
`empty_response` exactly when that normalisation is empty, and returns the
normalised markup otherwise. -/
theorem processImage_sync_semantics (r : MathpixTextResponse)
    (σ : List (String × String)) (herr : r.error = none) :
    (r.confidence < CONFIDENCE_THRESHOLD →
      processImageWithMathpix r σ = (Except.error MathpixErrorCode.LOW_CONFIDENCE, σ)) ∧
    (¬ r.confidence < CONFIDENCE_THRESHOLD → r.text = "" → r.latex_styled = "" →
      processImageWithMathpix r σ = (Except.error MathpixErrorCode.NO_MATH_DETECTED, σ)) ∧
    (¬ r.confidence < CONFIDENCE_THRESHOLD → ¬ (r.text = "" ∧ r.latex_styled = "") →
      (normalizeMMD r.latex_styled = "" →
        processImageWithMathpix r σ = (Except.error MathpixErrorCode.EMPTY_RESPONSE, σ)) ∧
      (normalizeMMD r.latex_styled ≠ "" →
        processImageWithMathpix r σ =
          (Except.ok { text := some r.text, mmd := some (normalizeMMD r.latex_styled),
                       error := none, pdf_id := none }, σ))) := by
  unfold processImageWithMathpix
  rw [herr]
  refine ⟨fun hconf => ?_, fun hconf ht hl => ?_,
    fun hconf hmix => ⟨fun hmm => ?_, fun hmm => ?_⟩⟩
  · rw [if_pos hconf]
  · rw [if_neg hconf, if_pos ⟨ht, hl⟩]
  · rw [if_neg hconf, if_neg hmix]
    dsimp only
    rw [if_pos hmm]
  · rw [if_neg hconf, if_neg hmix]
    dsimp only
    rw [if_neg hmm]

/-- Claim C5, witness (spec Scenario D): a recognition response with
confidence 0.5 and no error field fails with `low_confidence` and leaves
the storage state empty. -/
theorem processImage_sync_semantics_witness :
    processImageWithMathpix
      { text := "", html := "", latex_styled := "", confidence := 1/2,
        confidence_rate := 1/2, error := none } [] =
      (Except.error MathpixErrorCode.LOW_CONFIDENCE, []) :=
  (processImage_sync_semantics _ [] rfl).1 (by norm_num [CONFIDENCE_THRESHOLD])

/-- Claim C9: every exit of the orchestrator entry point
`processWithMathpix` is a success value or an error carrying one of the
eleven `MathpixErrorCode` kinds, for every behaviour of the inner
pipeline; in particular a non-`MathpixError` thrown condition is wrapped
as `processing_error` (or pre-empted by the typed credentials check). -/
theorem processWithMathpix_typed_exits (credsConfigured : Bool)
    (inner : Except JSError MathpixResponse) (s : String) :
    ((∃ v, processWithMathpix credsConfigured inner = Except.ok v) ∨
     (∃ c, processWithMathpix credsConfigured inner =
        Except.error (JSError.mathpix c))) ∧
    processWithMathpix credsConfigured (Except.error (JSError.other s)) =
      if credsConfigured = false then
        Except.error (JSError.mathpix MathpixErrorCode.INVALID_CREDENTIALS)
      else Except.error (JSError.mathpix MathpixErrorCode.PROCESSING_ERROR) := by
  constructor
  · cases credsConfigured with
    | false => exact Or.inr ⟨MathpixErrorCode.INVALID_CREDENTIALS, rfl⟩
    | true =>
      match inner with
      | Except.ok v => exact Or.inl ⟨v, rfl⟩
      | Except.error (JSError.mathpix c) => exact Or.inr ⟨c, rfl⟩
      | Except.error (JSError.other _) =>
          exact Or.inr ⟨MathpixErrorCode.PROCESSING_ERROR, rfl⟩
  · cases credsConfigured <;> rfl

/-- Claim C7 (amended): the derivation is idempotent on every file name
whose derived title ends in neither `.mmd` nor `.pdf` — in particular on
every name carrying a single recognised suffix (`.mmd`, `.pdf`, or
`.pdf.mmd`).  It is not idempotent in general: stacked suffixes such as
`a.mmd.mmd` still carry a strippable suffix after one derivation. -/
theorem deriveTitle_idempotent_on_settled (x : String)
    (hmmd : endsWithS (deriveTitle x) ".mmd" = false)
    (hpdf : endsWithS (deriveTitle x) ".pdf" = false) :
    deriveTitle (deriveTitle x) = deriveTitle x := by
  generalize hg : deriveTitle x = w at hmmd hpdf ⊢
  have hpm : endsWithS w ".pdf.mmd" = false := by
    cases hc : endsWithS w ".pdf.mmd" with
    | false => rfl
    | true => rw [endsWithS_mmd_of_pdfmmd _ hc] at hmmd; cases hmmd
  have h1 : stripMmd w = w := by rw [stripMmd, if_neg (by simp [hmmd])]
  have h2 : stripPdfMmd w = w := by rw [stripPdfMmd, if_neg (by simp [hpm])]
  have h3 : stripPdf w = w := by rw [stripPdf, if_neg (by simp [hpdf])]
  rw [deriveTitle, h1, h2, h3]

/-- Claim C7, witness: `calc101.pdf.mmd` derives to `calc101`, which is
settled, so a second derivation is the identity. -/
theorem deriveTitle_idempotent_on_settled_witness :
    deriveTitle (deriveTitle "calc101.pdf.mmd") = deriveTitle "calc101.pdf.mmd" :=
  deriveTitle_idempotent_on_settled "calc101.pdf.mmd" (by decide) (by decide)

/-- Claim C7, counterexample to idempotence as stated: `a.mmd.mmd`
derives to `a.mmd` (only one trailing `.mmd` is stripped), and a second
derivation strips again, giving `a`. -/
theorem deriveTitle_not_idempotent_cex :
    deriveTitle "a.mmd.mmd" = "a.mmd" ∧ deriveTitle "a.mmd" = "a" ∧
    deriveTitle (deriveTitle "a.mmd.mmd") ≠ deriveTitle "a.mmd.mmd" := by
  refine ⟨by decide, by decide, by decide⟩

/-- Claim C2 (amended): on a refresh, when the remote listing succeeds and
at least one artifact resolves the mirror is wholesale-replaced with the
resolved set; when the listing succeeds with zero artifacts the mirror is
wholesale-cleared; and when the listing itself fails the mirror is also
cleared (the `catch` block calls `clearDocumentCache`), not left
untouched. -/
theorem fetchStoredDocuments_eviction_policy (env : RemoteEnv) (σ : Mirror)
    (u : String) (now : Nat) :
    (∀ items, env.listing = Except.ok items → items ≠ [] →
      items.filterMap (fun it => fetchDocument env u it now) ≠ [] →
      fetchStoredDocuments env σ u true now =
        (items.filterMap (fun it => fetchDocument env u it now),
         some (items.filterMap (fun it => fetchDocument env u it now)))) ∧
    (env.listing = Except.ok [] →
      fetchStoredDocuments env σ u true now = ([], none)) ∧
    (∀ e, env.listing = Except.error e →
      fetchStoredDocuments env σ u true now = ([], none)) := by
  refine ⟨fun items hls hne hres => ?_, fun hls => ?_, fun e hls => ?_⟩
  · rw [fetchStoredDocuments]
    dsimp only
    rw [if_neg (by simp), hls]
    dsimp only
    rw [if_neg hne, if_pos hres]
  · rw [fetchStoredDocuments]
    dsimp only
    rw [if_neg (by simp), hls]
    dsimp only
    rw [if_pos rfl]
    rfl
  · rw [fetchStoredDocuments]
    dsimp only
    rw [if_neg (by simp), hls]
    rfl

/-- Claim C2, witness (spec Scenario B): a successful listing with zero
artifacts clears a previously non-empty mirror and returns the empty
sequence. -/
theorem fetchStoredDocuments_eviction_policy_witness :
    fetchStoredDocuments
        { listing := Except.ok [], content := fun _ => none }
        (some [dEx]) "u1" true 0 = ([], none) :=
  (fetchStoredDocuments_eviction_policy
    { listing := Except.ok [], content := fun _ => none }
    (some [dEx]) "u1" 0).2.1 rfl

/-- Claim C2, counterexample to the statement as written: when the remote
listing itself fails, the mirror is not left untouched — a prior mirror
holding one record comes out cleared (`none`). -/
theorem listing_failure_clears_mirror_cex :
    (fetchStoredDocuments
        { listing := Except.error (), content := fun _ => none }
        (some [dEx]) "u1" true 0).2 = none ∧
    (none : Mirror) ≠ some [dEx] := by
  refine ⟨by decide, by decide⟩

/-- Claim C3 (amended): in Scenario A — listing for `u1` returns exactly
`calc101.pdf.mmd` and the first candidate path downloads the non-empty
content `$x^2$` — the resolver returns exactly one record with id
`calc101.pdf.mmd`, content `$x^2$` and title `calc101` (the chained
replaces strip `.mmd` and then also `.pdf`, so the title is not
`calc101.pdf`), and overwrites the mirror with that record. -/
theorem scenarioA_resolution :
    fetchStoredDocuments envA none "u1" false 0 = ([recA], some [recA]) ∧
    envA.content "users/u1/mmd/calc101.pdf.mmd" = some "$x^2$" ∧
    recA = { id := "calc101.pdf.mmd", title := deriveTitle "calc101.pdf.mmd",
             content := "$x^2$", timestamp := 0 } := by
  refine ⟨by decide, by decide, by decide⟩

/-- Claim C3, counterexample to the statement as written: the record
returned in Scenario A is titled `calc101`, not `calc101.pdf`. -/
theorem scenarioA_title_cex :
    fetchStoredDocuments envA none "u1" false 0 = ([recA], some [recA]) ∧
    recA.title = "calc101" ∧
    (fetchStoredDocuments envA none "u1" false 0).1 ≠
      [{ id := "calc101.pdf.mmd", title := "calc101.pdf", content := "$x^2$",
         timestamp := 0 }] := by
  refine ⟨by decide, rfl, by decide⟩

/-- Claim C6 (amended): the local mirror is one shared slot (the single
AsyncStorage key `user_documents`), not keyed by owning user:
`saveDocument` ignores its user argument, and a record saved for any user
`uA` is returned by the resolver for any other user `uB` under
`forceRefresh = false`, since the now non-empty shared mirror is served
cache-first. -/
theorem cache_slot_shared_across_users (uA uB : String) (d : PDFDocument)
    (σ : Mirror) (env : RemoteEnv) (now : Nat) :
    saveDocument uA d σ = saveDocument uB d σ ∧
    fetchStoredDocuments env (saveDocument uA d σ) uB false now =
      (d :: loadDocuments σ, saveDocument uA d σ) := by
  refine ⟨rfl, ?_⟩
  rw [fetchStoredDocuments]
  dsimp only
  rw [if_pos ⟨rfl, by simp [saveDocument, loadDocuments]⟩]
  rfl

/-- Claim C6, counterexample to the statement as written: a record saved
into the mirror for `userA` is returned by the resolver for the distinct
user `userB`. -/
theorem cross_user_cache_leak_cex :
    (fetchStoredDocuments
        { listing := Except.error (), content := fun _ => none }
        (saveDocument "userA" dEx none) "userB" false 0).1 = [dEx] ∧
    ("userA" : String) ≠ "userB" := by
  refine ⟨by decide, by decide⟩

/-- Claim C10: with `forceRefresh = false` and a non-empty mirror, the
resolver returns exactly the mirror's records, leaves the mirror
unchanged, and its outcome is identical under any two remote
environments — the remote store does not influence the result. -/
theorem cache_first_independent_of_remote (env₁ env₂ : RemoteEnv) (σ : Mirror)
    (u : String) (now : Nat) (hne : loadDocuments σ ≠ []) :
    fetchStoredDocuments env₁ σ u false now = (loadDocuments σ, σ) ∧
    fetchStoredDocuments env₁ σ u false now =
      fetchStoredDocuments env₂ σ u false now := by
  have key : ∀ env : RemoteEnv,
      fetchStoredDocuments env σ u false now = (loadDocuments σ, σ) := by
    intro env
    rw [fetchStoredDocuments]
    dsimp only
    rw [if_pos ⟨rfl, hne⟩]
    rfl
  exact ⟨key env₁, (key env₁).trans (key env₂).symm⟩

/-- Claim C10, witness (spec Scenario E): a mirror holding two records is
returned as-is for `forceRefresh = false`, identically under a failing
remote and under Scenario A's remote. -/
theorem cache_first_independent_of_remote_witness :
    fetchStoredDocuments
        { listing := Except.error (), content := fun _ => none }
        (some [dEx, dEx2]) "u1" false 0 = ([dEx, dEx2], some [dEx, dEx2]) ∧
    fetchStoredDocuments
        { listing := Except.error (), content := fun _ => none }
        (some [dEx, dEx2]) "u1" false 0 =
      fetchStoredDocuments envA (some [dEx, dEx2]) "u1" false 0 :=
  cache_first_independent_of_remote
    { listing := Except.error (), content := fun _ => none } envA
    (some [dEx, dEx2]) "u1" 0 (by decide)
